import Mathlib

/-!
Verification of the Uncle & Aunty Kitchen front-end application.

The repository contains two variants of the same application file:

* `src/js/app.js` — the strict variant (no defensive checks on optional
  fields); embedded below in namespace `AppJs`.
* `src/unnamed/part_000` — the defensive variant (`Array.isArray` checks,
  fallbacks via `|| ''`, optional chaining); embedded below in namespace
  `Part000`.

The embedding models JSON values produced by `JSON.parse`, JavaScript
truthiness, property access (absent property = `undefined`, modelled as
`Option.none`), string coercion as performed by template-literal
interpolation, the memoizing loader `loadData` as an explicit
state-passing function over a cache, and each section renderer as a pure
function from the loaded document to the markup it writes (whitespace
inside template literals is normalized; the significant markup text is
kept verbatim).  A renderer result is `skipped` when the source returns
before any DOM mutation, `rendered` when it writes its targets, and
`fault` when the JavaScript would throw a `TypeError`.
-/

/-- JSON values as produced by `JSON.parse`.  Numbers are modelled as
integers (the content files use none where fractional values matter;
`NaN` cannot arise from `JSON.parse`). -/
inductive Json where
  | null
  | bool (b : Bool)
  | num (n : Int)
  | str (s : String)
  | arr (elems : List Json)
  | obj (fields : List (String × Json))

/-- JavaScript truthiness of a defined value. -/
def Json.truthy : Json → Bool
  | .null => false
  | .bool b => b
  | .num n => n != 0
  | .str s => s != ""
  | .arr _ => true
  | .obj _ => true

/-- Truthiness of a possibly-`undefined` value (`none` = `undefined`). -/
def jsTruthy : Option Json → Bool
  | none => false
  | some v => v.truthy

/-- Property access `v.key` on a value that is not null:  the field of
an object, and `undefined` (`none`) on every other non-null value,
matching JavaScript property access on non-object primitives.
JavaScript THROWS a TypeError when reading a property of null (or
undefined); the embedding models that thrown path explicitly at every
site that can receive a null (the item-level markup functions below
return `none` for a null item before any access, `jsOptChain` handles
the optional-chain guard, and every renderer accesses its document only
behind a truthiness guard), so this function is never applied to
`Json.null` by the embedded code. -/
def Json.get (v : Json) (key : String) : Option Json :=
  match v with
  | .obj fields => fields.lookup key
  | _ => none

mutual

/-- String coercion of a defined value, as performed by template-literal
interpolation and `textContent` assignment. -/
def Json.toDisplay : Json → String
  | .null => "null"
  | .bool b => cond b "true" "false"
  | .num n => toString n
  | .str s => s
  | .arr xs => String.intercalate "," (Json.listToDisplay xs)
  | .obj _ => "[object Object]"

/-- String coercion of each element of an array. -/
def Json.listToDisplay : List Json → List String
  | [] => []
  | x :: xs => Json.toDisplay x :: Json.listToDisplay xs

end

/-- The source idiom `x || fallback` interpolated into a template:  the
coerced value when `x` is defined and truthy, else the fallback string. -/
def jsOrStr (v : Option Json) (fallback : String) : String :=
  match v with
  | some j => if j.truthy then j.toDisplay else fallback
  | none => fallback

/-- Raw interpolation `x` of a possibly-`undefined` value:  JavaScript
renders `undefined` as the literal string "undefined". -/
def displayOpt (v : Option Json) : String :=
  match v with
  | some j => j.toDisplay
  | none => "undefined"

/-- The source idiom `Array.isArray(x) ? x : []`. -/
def arrayOrEmpty (v : Option Json) : List Json :=
  match v with
  | some (.arr xs) => xs
  | _ => []

/-- `Object.values(v)`:  field values of an object in insertion order,
the elements of an array, the one-character strings of a string, and the
empty list on the remaining (boxed primitive) values. -/
def Json.values : Json → List Json
  | .obj fields => fields.map Prod.snd
  | .arr xs => xs
  | .str s => s.data.map (fun c => Json.str (String.mk [c]))
  | _ => []

/-- Optional chaining `x?.key`:  `undefined` when `x` is nullish,
otherwise plain property access. -/
def jsOptChain (v : Option Json) (key : String) : Option Json :=
  match v with
  | none => none
  | some .null => none
  | some j => j.get key

/-- JavaScript `String.prototype.replace` with a string pattern replaces
only the first occurrence. -/
def jsReplaceOnce (s pat repl : String) : String :=
  match s.splitOn pat with
  | p0 :: p1 :: rest => p0 ++ repl ++ String.intercalate pat (p1 :: rest)
  | _ => s

/-- Outcome of the `fetch` of one resource:  a transport failure (network
error or non-success status, which the source converts to a thrown error)
or a response body. -/
inductive FetchResult where
  | transportError
  | ok (body : String)

/-- The external world seen by `loadData`:  what `fetch` returns for each
name, and what `JSON.parse` yields on each body (`none` = syntax error). -/
structure Env where
  fetch : String → FetchResult
  parse : String → Option Json

/-- The memoization map `dataCache`, keyed by filename.  Assignment is
modelled by consing, lookup by first match, so later assignments shadow
earlier ones exactly as property assignment does. -/
abbrev Cache := List (String × Json)

def cacheLookup (c : Cache) (name : String) : Option Json :=
  c.lookup name

def cacheInsert (c : Cache) (name : String) (v : Json) : Cache :=
  (name, v) :: c

/-- Result of one `loadData` call:  the returned value (`Json.null`
models the JavaScript `null` failure return), the cache afterwards,
whether a `fetch` was issued, and the `console.error` messages emitted
(first-argument template strings, in order). -/
structure LoadOutcome where
  result : Json
  cache : Cache
  fetched : Bool
  log : List String

namespace Part000

/-- The fetch-and-parse path of `loadData` in `src/unnamed/part_000`
(lines 18-38):  transport failures log the generic message; a JSON parse
failure logs a dedicated two-line diagnostic naming the file and giving
authoring guidance; on success the value is stored in the cache. -/
def fetchAndParse (env : Env) (cache : Cache) (name : String) : LoadOutcome :=
  match env.fetch name with
  | .transportError =>
      { result := .null, cache := cache, fetched := true,
        log := ["Error loading " ++ name ++ ":"] }
  | .ok body =>
      match env.parse body with
      | none =>
          { result := .null, cache := cache, fetched := true,
            log := ["JSON syntax error in " ++ name ++ ".json:",
                    "Check for missing commas, extra commas, or unclosed brackets"] }
      | some data =>
          { result := data, cache := cacheInsert cache name data,
            fetched := true, log := [] }

/-- `loadData` of `src/unnamed/part_000` (lines 13-39):  a truthiness
test on the cache entry decides between the memoized value and a fresh
fetch. -/
def loadData (env : Env) (cache : Cache) (name : String) : LoadOutcome :=
  match cacheLookup cache name with
  | some v =>
      if v.truthy then
        { result := v, cache := cache, fetched := false, log := [] }
      else fetchAndParse env cache name
  | none => fetchAndParse env cache name

end Part000

namespace AppJs

/-- The fetch-and-parse path of `loadData` in `src/js/app.js` (lines
18-27):  `response.json()` failures fall into the same catch block as
transport failures, so both log the same generic message. -/
def fetchAndParse (env : Env) (cache : Cache) (name : String) : LoadOutcome :=
  match env.fetch name with
  | .transportError =>
      { result := .null, cache := cache, fetched := true,
        log := ["Error loading " ++ name ++ ":"] }
  | .ok body =>
      match env.parse body with
      | none =>
          { result := .null, cache := cache, fetched := true,
            log := ["Error loading " ++ name ++ ":"] }
      | some data =>
          { result := data, cache := cacheInsert cache name data,
            fetched := true, log := [] }

/-- `loadData` of `src/js/app.js` (lines 13-28); the cache test is the
same truthiness check as in the other variant. -/
def loadData (env : Env) (cache : Cache) (name : String) : LoadOutcome :=
  match cacheLookup cache name with
  | some v =>
      if v.truthy then
        { result := v, cache := cache, fetched := false, log := [] }
      else fetchAndParse env cache name
  | none => fetchAndParse env cache name

end AppJs

/-- Output of the site renderer:  the strings written to the hero,
navigation, and footer targets. -/
structure SiteOut where
  heroName : String
  tagline : String
  subtitle : String
  navLogo : String
  footerLogo : String
  copyrightHtml : String

/-- Output of the about renderer:  the section heading and the single
innerHTML write into the about-text container. -/
structure AboutOut where
  title : String
  textHtml : String

/-- Output of the menu renderer. -/
structure MenuOut where
  title : String
  gridHtml : String
  note : String

/-- Output of the services renderer. -/
structure ServicesOut where
  title : String
  gridHtml : String

/-- Output of the contact renderer. -/
structure ContactOut where
  title : String
  infoHtml : String
  ctaHtml : String

/-- Behaviour of one renderer invocation:  `skipped` when the source
returns before touching the DOM (falsy document), `rendered` when the
section's targets are written, `fault` when the JavaScript throws a
`TypeError` part-way (any DOM writes preceding the throw are not
modelled; no claim depends on them). -/
inductive RenderResult (α : Type) where
  | skipped
  | rendered (out : α)
  | fault

/-- The paragraph template, identical in both variants. -/
def paragraphHtml (p : Json) : String :=
  "<p>" ++ p.toDisplay ++ "</p>"

/-- `renderSite`, byte-identical in both source files (app.js lines
33-48, part_000 lines 44-59):  no fallbacks; `site.name.replace` throws
unless `name` is a string. -/
def renderSite (doc : Json) : RenderResult SiteOut :=
  if !doc.truthy then .skipped
  else
    match doc.get "name" with
    | some (.str n) =>
        .rendered { heroName := n,
                    tagline := displayOpt (doc.get "tagline"),
                    subtitle := displayOpt (doc.get "subtitle"),
                    navLogo := jsReplaceOnce n " Kitchen" "",
                    footerLogo := n,
                    copyrightHtml := "&copy; " ++ displayOpt (doc.get "copyright") }
    | _ => .fault

namespace Part000

/-- Feature markup with the two resolved slots abstracted. -/
def featureTemplate (icon text : String) : String :=
  "<div class=\"feature\"><span class=\"feature-icon\">" ++ icon ++
    "</span><span>" ++ text ++ "</span></div>"

/-- One feature entry (part_000 lines 80-87).  JavaScript throws a
TypeError at the first property access `f.icon` when the array element
is null; that thrown path is the `none` result. -/
def featureHtml (f : Json) : Option String :=
  match f with
  | .null => none
  | _ => some (featureTemplate (jsOrStr (f.get "icon") "") (jsOrStr (f.get "text") ""))

/-- The single innerHTML value written by `renderAbout` (part_000 lines
74-92):  the paragraphs followed by the features block, the latter only
when at least one feature is present; `none` when a null feature element
makes the map throw (a null paragraph does not throw:  it is
interpolated as the text null). -/
def aboutTextHtml (doc : Json) : Option String :=
  match (arrayOrEmpty (doc.get "features")).mapM featureHtml with
  | none => none
  | some feats =>
      some (String.join ((arrayOrEmpty (doc.get "paragraphs")).map paragraphHtml) ++
        (if (arrayOrEmpty (doc.get "features")).length != 0 then
           "<div class=\"features\">" ++ String.join feats ++ "</div>"
         else ""))

/-- `renderAbout` of part_000 (lines 64-93):  faults only when the
features map throws on a null element, before the single innerHTML
write. -/
def renderAbout (doc : Json) : RenderResult AboutOut :=
  if !doc.truthy then .skipped
  else
    match aboutTextHtml doc with
    | none => .fault
    | some text =>
        .rendered { title := jsOrStr (doc.get "title") "About Us",
                    textHtml := text }

/-- Menu item markup with the two resolved slots abstracted. -/
def menuItemTemplate (name desc : String) : String :=
  "<li><span class=\"dish-name\">" ++ name ++
    "</span><span class=\"dish-desc\">" ++ desc ++ "</span></li>"

/-- One dish (part_000 lines 116-121):  a null item throws at
`item.name`. -/
def menuItemHtml (item : Json) : Option String :=
  match item with
  | .null => none
  | _ => some (menuItemTemplate (jsOrStr (item.get "name") "")
      (jsOrStr (item.get "description") ""))

/-- One menu category (part_000 lines 110-125):  a null category throws
at `category.items`, a null item throws inside the inner map. -/
def menuCategoryHtml (category : Json) : Option String :=
  match category with
  | .null => none
  | _ =>
      match (arrayOrEmpty (category.get "items")).mapM menuItemHtml with
      | none => none
      | some items =>
          some ("<div class=\"menu-category\"><h3>" ++
            jsOrStr (category.get "name") "Menu" ++ "</h3><ul>" ++
            String.join items ++ "</ul></div>")

/-- `renderMenu` of part_000 (lines 98-132). -/
def renderMenu (doc : Json) : RenderResult MenuOut :=
  if !doc.truthy then .skipped
  else
    match (arrayOrEmpty (doc.get "categories")).mapM menuCategoryHtml with
    | none => .fault
    | some cats =>
        .rendered { title := jsOrStr (doc.get "title") "Our Menu",
                    gridHtml := String.join cats,
                    note := jsOrStr (doc.get "note") "" }

/-- Service card markup with the three resolved slots abstracted. -/
def serviceCardTemplate (icon name desc : String) : String :=
  "<div class=\"service-card\"><div class=\"service-icon\">" ++ icon ++
    "</div><h3>" ++ name ++ "</h3><p>" ++ desc ++ "</p></div>"

/-- One service card (part_000 lines 148-154):  a null item throws at
`service.icon`. -/
def serviceCardHtml (service : Json) : Option String :=
  match service with
  | .null => none
  | _ => some (serviceCardTemplate (jsOrStr (service.get "icon") "")
      (jsOrStr (service.get "name") "") (jsOrStr (service.get "description") ""))

/-- `renderServices` of part_000 (lines 137-158). -/
def renderServices (doc : Json) : RenderResult ServicesOut :=
  if !doc.truthy then .skipped
  else
    match (arrayOrEmpty (doc.get "items")).mapM serviceCardHtml with
    | none => .fault
    | some cards =>
        .rendered { title := jsOrStr (doc.get "title") "Our Services",
                    gridHtml := String.join cards }

/-- Contact item markup with the three resolved slots abstracted. -/
def contactItemTemplate (icon label valueHtml : String) : String :=
  "<div class=\"contact-item\"><span class=\"contact-icon\">" ++ icon ++
    "</span><div><h4>" ++ label ++ "</h4><p>" ++ valueHtml ++ "</p></div></div>"

/-- The value slot of one contact item (part_000 lines 181-184):  a link
anchor when `item.link` is truthy, else the bare value.  Called only on
non-null items. -/
def contactValueHtml (item : Json) : String :=
  match item.get "link" with
  | some l =>
      if l.truthy then
        "<a href=\"" ++ l.toDisplay ++ "\">" ++ jsOrStr (item.get "value") "" ++ "</a>"
      else jsOrStr (item.get "value") ""
  | none => jsOrStr (item.get "value") ""

/-- One contact item (part_000 lines 176-187):  a null detail value
throws at `item.icon`. -/
def contactItemHtml (item : Json) : Option String :=
  match item with
  | .null => none
  | _ => some (contactItemTemplate (jsOrStr (item.get "icon") "")
      (jsOrStr (item.get "label") "") (contactValueHtml item))

/-- The source expression `contact.details || ` empty object (part_000
line 172); never null. -/
def detailsOf (contact : Json) : Json :=
  match contact.get "details" with
  | some d => if d.truthy then d else .obj []
  | none => .obj []

/-- The contact-info innerHTML (part_000 lines 173-188):  `none` when a
null detail value makes the map throw. -/
def infoHtmlOf (contact : Json) : Option String :=
  match ((detailsOf contact).values).mapM contactItemHtml with
  | none => none
  | some items => some (String.join items)

/-- The call-to-action link target (part_000 line 194):
`details.phone?.link || ` a same-page anchor. -/
def ctaHref (contact : Json) : String :=
  jsOrStr (jsOptChain ((detailsOf contact).get "phone") "link") "#contact"

/-- CTA markup with the three resolved slots abstracted. -/
def ctaTemplate (text href button : String) : String :=
  "<p>" ++ text ++ "</p><a href=\"" ++ href ++ "\" class=\"cta-button\">" ++
    button ++ "</a>"

/-- The contact-cta innerHTML (part_000 lines 195-198); evaluated only
after the contact-info write succeeds. -/
def ctaHtmlOf (contact : Json) : String :=
  ctaTemplate (jsOrStr (contact.get "cta_text") "") (ctaHref contact)
    (jsOrStr (contact.get "cta_button") "Contact Us")

/-- `renderContact` of part_000 (lines 163-199):  the contact-info map
runs first and throws on a null detail value; only when it succeeds are
the info and CTA targets written. -/
def renderContact (doc : Json) : RenderResult ContactOut :=
  if !doc.truthy then .skipped
  else
    match infoHtmlOf doc with
    | none => .fault
    | some info =>
        .rendered { title := jsOrStr (doc.get "title") "Contact Us",
                    infoHtml := info,
                    ctaHtml := ctaHtmlOf doc }

end Part000

namespace AppJs

/-- One feature entry in the strict variant (app.js lines 68-73):  raw
interpolation, no fallbacks; a null element throws at `f.icon`. -/
def featureHtml (f : Json) : Option String :=
  match f with
  | .null => none
  | _ => some ("<div class=\"feature\"><span class=\"feature-icon\">" ++
      displayOpt (f.get "icon") ++ "</span><span>" ++ displayOpt (f.get "text") ++
      "</span></div>")

/-- `renderAbout` of app.js (lines 53-80):  `about.paragraphs.map` and
`about.features.map` throw unless both fields are arrays, and a null
feature element throws at `f.icon`. -/
def renderAbout (doc : Json) : RenderResult AboutOut :=
  if !doc.truthy then .skipped
  else
    match doc.get "paragraphs", doc.get "features" with
    | some (.arr ps), some (.arr fs) =>
        match fs.mapM featureHtml with
        | none => .fault
        | some feats =>
            .rendered { title := displayOpt (doc.get "title"),
                        textHtml := String.join (ps.map paragraphHtml) ++
                          "<div class=\"features\">" ++ String.join feats ++
                          "</div>" }
    | _, _ => .fault

/-- One dish in the strict variant (app.js lines 99-104):  a null item
throws at `item.name`. -/
def menuItemHtml (item : Json) : Option String :=
  match item with
  | .null => none
  | _ => some ("<li><span class=\"dish-name\">" ++ displayOpt (item.get "name") ++
      "</span><span class=\"dish-desc\">" ++ displayOpt (item.get "description") ++
      "</span></li>")

/-- One menu category in the strict variant (app.js lines 95-107):  a
null category throws at `category.items`, `category.items.map` throws
unless `items` is an array, and a null item throws inside it. -/
def menuCategoryHtml (category : Json) : Option String :=
  match category with
  | .null => none
  | _ =>
      match category.get "items" with
      | some (.arr items) =>
          match items.mapM menuItemHtml with
          | none => none
          | some xs =>
              some ("<div class=\"menu-category\"><h3>" ++
                displayOpt (category.get "name") ++ "</h3><ul>" ++
                String.join xs ++ "</ul></div>")
      | _ => none

/-- `renderMenu` of app.js (lines 85-114). -/
def renderMenu (doc : Json) : RenderResult MenuOut :=
  if !doc.truthy then .skipped
  else
    match doc.get "categories" with
    | some (.arr cats) =>
        match cats.mapM menuCategoryHtml with
        | none => .fault
        | some xs =>
            .rendered { title := displayOpt (doc.get "title"),
                        gridHtml := String.join xs,
                        note := displayOpt (doc.get "note") }
    | _ => .fault

/-- One service card in the strict variant (app.js lines 129-135):  a
null item throws at `service.icon`. -/
def serviceCardHtml (service : Json) : Option String :=
  match service with
  | .null => none
  | _ => some ("<div class=\"service-card\"><div class=\"service-icon\">" ++
      displayOpt (service.get "icon") ++ "</div><h3>" ++
      displayOpt (service.get "name") ++ "</h3><p>" ++
      displayOpt (service.get "description") ++ "</p></div>")

/-- `renderServices` of app.js (lines 119-139):  throws unless
`services.items` is an array, and on a null item. -/
def renderServices (doc : Json) : RenderResult ServicesOut :=
  if !doc.truthy then .skipped
  else
    match doc.get "items" with
    | some (.arr items) =>
        match items.mapM serviceCardHtml with
        | none => .fault
        | some cards =>
            .rendered { title := displayOpt (doc.get "title"),
                        gridHtml := String.join cards }
    | _ => .fault

/-- One contact item in the strict variant (app.js lines 156-167):  a
null detail value throws at `item.icon`. -/
def contactItemHtml (item : Json) : Option String :=
  match item with
  | .null => none
  | _ => some ("<div class=\"contact-item\"><span class=\"contact-icon\">" ++
      displayOpt (item.get "icon") ++ "</span><div><h4>" ++
      displayOpt (item.get "label") ++ "</h4><p>" ++
      (match item.get "link" with
       | some l =>
           if l.truthy then
             "<a href=\"" ++ l.toDisplay ++ "\">" ++ displayOpt (item.get "value") ++ "</a>"
           else displayOpt (item.get "value")
       | none => displayOpt (item.get "value")) ++ "</p></div></div>")

/-- `renderContact` of app.js (lines 144-178):  `Object.values(details)`
throws when `contact.details` is absent or null, the detail map (which
runs first) throws on a null detail value, and `details.phone.link`
throws when the `phone` entry is absent or null. -/
def renderContact (doc : Json) : RenderResult ContactOut :=
  if !doc.truthy then .skipped
  else
    match doc.get "details" with
    | none => .fault
    | some d =>
        match d with
        | .null => .fault
        | _ =>
            match d.values.mapM contactItemHtml with
            | none => .fault
            | some items =>
                match d.get "phone" with
                | none => .fault
                | some p =>
                    match p with
                    | .null => .fault
                    | _ =>
                        .rendered { title := displayOpt (doc.get "title"),
                                    infoHtml := String.join items,
                                    ctaHtml := "<p>" ++ displayOpt (doc.get "cta_text") ++
                                      "</p><a href=\"" ++ displayOpt (p.get "link") ++
                                      "\" class=\"cta-button\">" ++
                                      displayOpt (doc.get "cta_button") ++ "</a>" }

end AppJs

/-- The five documents one bootstrap run loads, one per section. -/
structure SectionDocs where
  site : Json
  about : Json
  menu : Json
  services : Json
  contact : Json

/-- The five render results of one bootstrap run. -/
structure RenderOutputs where
  site : RenderResult SiteOut
  about : RenderResult AboutOut
  menu : RenderResult MenuOut
  services : RenderResult ServicesOut
  contact : RenderResult ContactOut

/-- The five renders launched by `init` in part_000, each a function of
its own document alone (the sections write to disjoint DOM regions). -/
def Part000.renderAll (d : SectionDocs) : RenderOutputs :=
  { site := renderSite d.site,
    about := Part000.renderAbout d.about,
    menu := Part000.renderMenu d.menu,
    services := Part000.renderServices d.services,
    contact := Part000.renderContact d.contact }

/-- The five renders launched by `init` in app.js. -/
def AppJs.renderAll (d : SectionDocs) : RenderOutputs :=
  { site := renderSite d.site,
    about := AppJs.renderAbout d.about,
    menu := AppJs.renderMenu d.menu,
    services := AppJs.renderServices d.services,
    contact := AppJs.renderContact d.contact }

/-- `classList.add`: appends the class when absent, no-op when present. -/
def classAdd (classes : List String) (c : String) : List String :=
  if c ∈ classes then classes else classes ++ [c]

/-- `classList.remove`: removes the class. -/
def classRemove (classes : List String) (c : String) : List String :=
  classes.filter (fun x => x != c)

/-- The scroll handler installed by `initNavigation` (identical in both
files; app.js lines 215-222):  one update of the navbar class list as a
function of the current vertical scroll position. -/
def onScroll (scrollY : Nat) (classes : List String) : List String :=
  if scrollY > 50 then classAdd classes "scrolled"
  else classRemove classes "scrolled"

/-- Events observable during bootstrap:  a section renderer settling, and
the chrome controller `initNavigation` starting. -/
inductive Ev where
  | settled (sec : String)
  | navInit
deriving DecidableEq

/-- An interleaving of two event sequences (order within each preserved). -/
inductive Interleave : List Ev → List Ev → List Ev → Prop where
  | nil : Interleave [] [] []
  | left {x xs ys zs} : Interleave xs ys zs → Interleave (x :: xs) ys (x :: zs)
  | right {y xs ys zs} : Interleave xs ys zs → Interleave xs (y :: ys) (y :: zs)

/-- An interleaving of any number of event sequences, as the event loop
may schedule the concurrently launched renderer tasks. -/
inductive InterleaveAll : List (List Ev) → List Ev → Prop where
  | nil : InterleaveAll [] []
  | cons {xs rest t xss} : Interleave xs rest t → InterleaveAll xss rest →
      InterleaveAll (xs :: xss) t

/-- The five section names, in the order `init` launches them. -/
def sectionNames : List String :=
  ["site", "about", "menu", "services", "contact"]

/-- Traces of `init` (part_000 lines 249-267, identical in app.js):  the
five renderer tasks run concurrently in some interleaving, the
`Promise.all` barrier joins them, and only then does `initNavigation`
run. -/
def InitTrace (t : List Ev) : Prop :=
  ∃ body, InterleaveAll (sectionNames.map (fun n => [Ev.settled n])) body ∧
    t = body ++ [Ev.navInit]

/-- Whether the first list of characters is a prefix of the second. -/
def isPrefixChars : List Char → List Char → Bool
  | [], _ => true
  | _ :: _, [] => false
  | a :: as, b :: bs => a == b && isPrefixChars as bs

/-- Whether the first list of characters occurs inside the second. -/
def containsChars (needle hay : List Char) : Bool :=
  isPrefixChars needle hay ||
    match hay with
    | [] => false
    | _ :: bs => containsChars needle bs

/-- Whether `needle` occurs as a substring of `hay`. -/
def strContains (needle hay : String) : Bool :=
  containsChars needle.data hay.data

/-- The option holds no JSON sequence (the field is missing or not an
array). -/
def notSeq (o : Option Json) : Prop := ∀ xs, o ≠ some (Json.arr xs)

lemma arrayOrEmpty_eq_nil {o : Option Json} (h : notSeq o) :
    arrayOrEmpty o = [] := by
  unfold arrayOrEmpty
  match o with
  | none => rfl
  | some .null => rfl
  | some (.bool b) => rfl
  | some (.num n) => rfl
  | some (.str s) => rfl
  | some (.arr xs) => exact absurd rfl (h xs)
  | some (.obj fs) => rfl

lemma cacheLookup_cacheInsert_self (c : Cache) (n : String) (v : Json) :
    cacheLookup (cacheInsert c n v) n = some v := by
  simp [cacheLookup, cacheInsert, List.lookup]

lemma Part000.loadData_of_miss (env : Env) (cache : Cache) (name : String)
    (h : jsTruthy (cacheLookup cache name) = false) :
    Part000.loadData env cache name = Part000.fetchAndParse env cache name := by
  unfold Part000.loadData
  cases hcl : cacheLookup cache name with
  | none => rfl
  | some v =>
      have hv : v.truthy = false := by simpa [jsTruthy, hcl] using h
      simp [hv]

lemma AppJs.loadData_of_miss_strict (env : Env) (cache : Cache) (name : String)
    (h : jsTruthy (cacheLookup cache name) = false) :
    AppJs.loadData env cache name = AppJs.fetchAndParse env cache name := by
  unfold AppJs.loadData
  cases hcl : cacheLookup cache name with
  | none => rfl
  | some v =>
      have hv : v.truthy = false := by simpa [jsTruthy, hcl] using h
      simp [hv]

lemma Part000.fetchAndParse_fetched (env : Env) (cache : Cache) (name : String) :
    (Part000.fetchAndParse env cache name).fetched = true := by
  cases hf : env.fetch name with
  | transportError => simp [Part000.fetchAndParse, hf]
  | ok body =>
      cases hp : env.parse body with
      | none => simp [Part000.fetchAndParse, hf, hp]
      | some data => simp [Part000.fetchAndParse, hf, hp]

lemma AppJs.fetchAndParse_fetched_strict (env : Env) (cache : Cache) (name : String) :
    (AppJs.fetchAndParse env cache name).fetched = true := by
  cases hf : env.fetch name with
  | transportError => simp [AppJs.fetchAndParse, hf]
  | ok body =>
      cases hp : env.parse body with
      | none => simp [AppJs.fetchAndParse, hf, hp]
      | some data => simp [AppJs.fetchAndParse, hf, hp]

lemma isPrefixChars_self_append (xs ys : List Char) :
    isPrefixChars xs (xs ++ ys) = true := by
  induction xs with
  | nil => rfl
  | cons a as ih => simp [isPrefixChars, ih]

lemma containsChars_mid (n pre post : List Char) :
    containsChars n (pre ++ n ++ post) = true := by
  induction pre with
  | nil =>
      unfold containsChars
      rw [List.nil_append, isPrefixChars_self_append]
      simp
  | cons c cs ih =>
      have hshape : (c :: cs) ++ n ++ post = c :: (cs ++ n ++ post) := by simp
      rw [hshape]
      unfold containsChars
      have ih2 : containsChars n (cs ++ (n ++ post)) = true := by
        rw [← List.append_assoc]
        exact ih
      simp [ih2]

lemma strContains_mid (n a b : String) : strContains n (a ++ n ++ b) = true := by
  unfold strContains
  rw [String.data_append, String.data_append]
  exact containsChars_mid n.data a.data b.data

lemma parse_log_ne_transport_log (name : String) :
    ("JSON syntax error in " ++ name ++ ".json:") ≠ ("Error loading " ++ name ++ ":") := by
  intro h
  have h2 := congrArg String.length h
  rw [String.length_append, String.length_append, String.length_append,
      String.length_append] at h2
  have e1 : ("JSON syntax error in " : String).length = 21 := rfl
  have e2 : (".json:" : String).length = 6 := rfl
  have e3 : ("Error loading " : String).length = 14 := rfl
  have e4 : (":" : String).length = 1 := rfl
  rw [e1, e2, e3, e4] at h2
  omega

lemma interleave_mem_iff {xs ys zs : List Ev} (h : Interleave xs ys zs) (e : Ev) :
    e ∈ zs ↔ e ∈ xs ∨ e ∈ ys := by
  induction h with
  | nil => simp
  | left h ih => simp only [List.mem_cons, ih]; tauto
  | right h ih => simp only [List.mem_cons, ih]; tauto

lemma interleaveAll_mem_iff {xss : List (List Ev)} {t : List Ev}
    (h : InterleaveAll xss t) (e : Ev) :
    e ∈ t ↔ ∃ xs, xs ∈ xss ∧ e ∈ xs := by
  induction h with
  | nil => simp
  | cons hint hall ih =>
      rw [interleave_mem_iff hint e, ih]
      constructor
      · rintro (hx | ⟨xs, hxs, hex⟩)
        · exact ⟨_, List.mem_cons_self _ _, hx⟩
        · exact ⟨xs, List.mem_cons_of_mem _ hxs, hex⟩
      · rintro ⟨xs, hxs, hex⟩
        rcases List.mem_cons.mp hxs with h1 | h1
        · subst h1; exact Or.inl hex
        · exact Or.inr ⟨xs, h1, hex⟩

lemma interleave_nil_left (ys : List Ev) : Interleave [] ys ys := by
  induction ys with
  | nil => exact .nil
  | cons y ys ih => exact .right ih

/-- An environment whose every resource is the JSON text of the number
zero:  the fetch succeeds and the parse yields the falsy document 0. -/
def envZero : Env :=
  { fetch := fun _ => .ok "0",
    parse := fun s => if s = "0" then some (Json.num 0) else none }

/-- An environment serving one small, truthy document for every name. -/
def envGood : Env :=
  { fetch := fun _ => .ok "obj",
    parse := fun s =>
      if s = "obj" then some (Json.obj [("title", Json.str "Hi")]) else none }

/-- An environment whose every fetch fails at the transport level. -/
def envFail : Env :=
  { fetch := fun _ => .transportError, parse := fun _ => none }

/-- An environment serving a body that does not parse as JSON. -/
def envBad : Env :=
  { fetch := fun _ => .ok "oops", parse := fun _ => none }

lemma Part000.fetchAndParse_truthy (env : Env) (cache : Cache) (name : String)
    (h : (Part000.fetchAndParse env cache name).result.truthy = true) :
    ∃ data, Part000.fetchAndParse env cache name =
        { result := data, cache := cacheInsert cache name data,
          fetched := true, log := [] } ∧
      data.truthy = true := by
  cases hf : env.fetch name with
  | transportError => simp [Part000.fetchAndParse, hf, Json.truthy] at h
  | ok body =>
      cases hp : env.parse body with
      | none => simp [Part000.fetchAndParse, hf, hp, Json.truthy] at h
      | some data =>
          refine ⟨data, by simp [Part000.fetchAndParse, hf, hp], ?_⟩
          simpa [Part000.fetchAndParse, hf, hp] using h

lemma AppJs.fetchAndParse_truthy_strict (env : Env) (cache : Cache) (name : String)
    (h : (AppJs.fetchAndParse env cache name).result.truthy = true) :
    ∃ data, AppJs.fetchAndParse env cache name =
        { result := data, cache := cacheInsert cache name data,
          fetched := true, log := [] } ∧
      data.truthy = true := by
  cases hf : env.fetch name with
  | transportError => simp [AppJs.fetchAndParse, hf, Json.truthy] at h
  | ok body =>
      cases hp : env.parse body with
      | none => simp [AppJs.fetchAndParse, hf, hp, Json.truthy] at h
      | some data =>
          refine ⟨data, by simp [AppJs.fetchAndParse, hf, hp], ?_⟩
          simpa [AppJs.fetchAndParse, hf, hp] using h

lemma Part000.loadData_idem_of_truthy (env : Env) (cache : Cache) (name : String)
    (h : (Part000.loadData env cache name).result.truthy = true) :
    (Part000.loadData env (Part000.loadData env cache name).cache name).fetched = false ∧
    (Part000.loadData env (Part000.loadData env cache name).cache name).result =
      (Part000.loadData env cache name).result := by
  cases hcl : cacheLookup cache name with
  | none =>
      have he : Part000.loadData env cache name = Part000.fetchAndParse env cache name := by
        simp [Part000.loadData, hcl]
      rw [he] at h ⊢
      obtain ⟨data, hfp, hdt⟩ := Part000.fetchAndParse_truthy env cache name h
      rw [hfp]
      simp [Part000.loadData, cacheLookup_cacheInsert_self, hdt]
  | some v =>
      by_cases hv : v.truthy
      · have he : Part000.loadData env cache name =
            { result := v, cache := cache, fetched := false, log := [] } := by
          simp [Part000.loadData, hcl, hv]
        rw [he]
        simp [Part000.loadData, hcl, hv]
      · have he : Part000.loadData env cache name = Part000.fetchAndParse env cache name := by
          simp [Part000.loadData, hcl, hv]
        rw [he] at h ⊢
        obtain ⟨data, hfp, hdt⟩ := Part000.fetchAndParse_truthy env cache name h
        rw [hfp]
        simp [Part000.loadData, cacheLookup_cacheInsert_self, hdt]

lemma AppJs.loadData_idem_of_truthy_strict (env : Env) (cache : Cache) (name : String)
    (h : (AppJs.loadData env cache name).result.truthy = true) :
    (AppJs.loadData env (AppJs.loadData env cache name).cache name).fetched = false ∧
    (AppJs.loadData env (AppJs.loadData env cache name).cache name).result =
      (AppJs.loadData env cache name).result := by
  cases hcl : cacheLookup cache name with
  | none =>
      have he : AppJs.loadData env cache name = AppJs.fetchAndParse env cache name := by
        simp [AppJs.loadData, hcl]
      rw [he] at h ⊢
      obtain ⟨data, hfp, hdt⟩ := AppJs.fetchAndParse_truthy_strict env cache name h
      rw [hfp]
      simp [AppJs.loadData, cacheLookup_cacheInsert_self, hdt]
  | some v =>
      by_cases hv : v.truthy
      · have he : AppJs.loadData env cache name =
            { result := v, cache := cache, fetched := false, log := [] } := by
          simp [AppJs.loadData, hcl, hv]
        rw [he]
        simp [AppJs.loadData, hcl, hv]
      · have he : AppJs.loadData env cache name = AppJs.fetchAndParse env cache name := by
          simp [AppJs.loadData, hcl, hv]
        rw [he] at h ⊢
        obtain ⟨data, hfp, hdt⟩ := AppJs.fetchAndParse_truthy_strict env cache name h
        rw [hfp]
        simp [AppJs.loadData, cacheLookup_cacheInsert_self, hdt]

/-- C1 counterexample:  a resource that parses successfully to the falsy
document 0 is returned and stored in the cache by the first `loadData`
call (the call succeeds, and the failure value null is not returned),
yet the second call for the same name issues another fetch, because the
cache test is a truthiness test.  This holds in both source variants. -/
theorem C1_falsy_document_refetches :
    (Part000.loadData envZero [] "site").result = Json.num 0 ∧
    (Part000.loadData envZero [] "site").cache = [("site", Json.num 0)] ∧
    (Part000.loadData envZero [] "site").fetched = true ∧
    (Part000.loadData envZero (Part000.loadData envZero [] "site").cache "site").fetched
      = true ∧
    (AppJs.loadData envZero [] "site").result = Json.num 0 ∧
    (AppJs.loadData envZero (AppJs.loadData envZero [] "site").cache "site").fetched
      = true :=
  ⟨rfl, rfl, rfl, rfl, rfl, rfl⟩

/-- C1 (amended):  after a `loadData` call succeeds for a name with a
truthy document value, a second call with the same name issues no
further fetch and returns the same cached document value.  Both source
variants. -/
theorem C1_second_call_cached (env : Env) (cache : Cache) (name : String) :
    ((Part000.loadData env cache name).result.truthy = true →
      (Part000.loadData env (Part000.loadData env cache name).cache name).fetched
          = false ∧
      (Part000.loadData env (Part000.loadData env cache name).cache name).result
          = (Part000.loadData env cache name).result) ∧
    ((AppJs.loadData env cache name).result.truthy = true →
      (AppJs.loadData env (AppJs.loadData env cache name).cache name).fetched
          = false ∧
      (AppJs.loadData env (AppJs.loadData env cache name).cache name).result
          = (AppJs.loadData env cache name).result) :=
  ⟨fun h => Part000.loadData_idem_of_truthy env cache name h,
   fun h => AppJs.loadData_idem_of_truthy_strict env cache name h⟩

/-- C1 witness:  with a concrete environment serving a truthy document,
the second call issues no fetch and returns the same value. -/
theorem C1_second_call_cached_witness :
    (Part000.loadData envGood (Part000.loadData envGood [] "site").cache "site").fetched
        = false ∧
    (AppJs.loadData envGood (AppJs.loadData envGood [] "site").cache "site").result
        = (AppJs.loadData envGood [] "site").result := by
  have h := C1_second_call_cached envGood [] "site"
  exact ⟨(h.1 (by rfl)).1, (h.2 (by rfl)).2⟩

lemma Part000.fetchAndParse_fail (env : Env) (cache : Cache) (name : String)
    (hfail : env.fetch name = FetchResult.transportError ∨
      ∃ body, env.fetch name = FetchResult.ok body ∧ env.parse body = none) :
    (Part000.fetchAndParse env cache name).cache = cache ∧
    (Part000.fetchAndParse env cache name).result = Json.null := by
  rcases hfail with hf | ⟨body, hf, hp2⟩
  · simp [Part000.fetchAndParse, hf]
  · simp [Part000.fetchAndParse, hf, hp2]

lemma AppJs.fetchAndParse_fail_strict (env : Env) (cache : Cache) (name : String)
    (hfail : env.fetch name = FetchResult.transportError ∨
      ∃ body, env.fetch name = FetchResult.ok body ∧ env.parse body = none) :
    (AppJs.fetchAndParse env cache name).cache = cache ∧
    (AppJs.fetchAndParse env cache name).result = Json.null := by
  rcases hfail with hf | ⟨body, hf, hp2⟩
  · simp [AppJs.fetchAndParse, hf]
  · simp [AppJs.fetchAndParse, hf, hp2]

/-- C2:  when the fetch or the parse for a name fails (and the name has
no truthy cache entry, so the load path actually runs), `loadData`
returns the failure value, leaves the cache exactly as it was, and a
subsequent call for the same name issues a new fetch.  Both source
variants. -/
theorem C2_failure_not_cached (env : Env) (cache : Cache) (name : String)
    (hmiss : jsTruthy (cacheLookup cache name) = false)
    (hfail : env.fetch name = FetchResult.transportError ∨
      ∃ body, env.fetch name = FetchResult.ok body ∧ env.parse body = none) :
    ((Part000.loadData env cache name).cache = cache ∧
     (Part000.loadData env cache name).result = Json.null ∧
     (Part000.loadData env (Part000.loadData env cache name).cache name).fetched
        = true) ∧
    ((AppJs.loadData env cache name).cache = cache ∧
     (AppJs.loadData env cache name).result = Json.null ∧
     (AppJs.loadData env (AppJs.loadData env cache name).cache name).fetched
        = true) := by
  have hp := Part000.loadData_of_miss env cache name hmiss
  have ha := AppJs.loadData_of_miss_strict env cache name hmiss
  obtain ⟨hc1, hr1⟩ := Part000.fetchAndParse_fail env cache name hfail
  obtain ⟨hc2, hr2⟩ := AppJs.fetchAndParse_fail_strict env cache name hfail
  refine ⟨⟨?_, ?_, ?_⟩, ?_, ?_, ?_⟩
  · rw [hp]; exact hc1
  · rw [hp]; exact hr1
  · rw [hp, hc1, Part000.loadData_of_miss env cache name hmiss]
    exact Part000.fetchAndParse_fetched env cache name
  · rw [ha]; exact hc2
  · rw [ha]; exact hr2
  · rw [ha, hc2, AppJs.loadData_of_miss_strict env cache name hmiss]
    exact AppJs.fetchAndParse_fetched_strict env cache name

/-- C2 witness:  a concrete transport failure is not cached and the next
call fetches again, in both variants. -/
theorem C2_failure_not_cached_witness :
    ((Part000.loadData envFail [] "site").cache = [] ∧
     (Part000.loadData envFail [] "site").result = Json.null ∧
     (Part000.loadData envFail (Part000.loadData envFail [] "site").cache "site").fetched
        = true) ∧
    ((AppJs.loadData envFail [] "site").cache = [] ∧
     (AppJs.loadData envFail [] "site").result = Json.null ∧
     (AppJs.loadData envFail (AppJs.loadData envFail [] "site").cache "site").fetched
        = true) :=
  C2_failure_not_cached envFail [] "site" rfl (Or.inl rfl)

lemma notSeq_none : notSeq none :=
  fun _ h => Option.noConfusion h

/-- A small truthy document with only a title, used as a witness input. -/
def docT : Json := Json.obj [("title", Json.str "T")]

/-- A truthy about document with paragraphs but no features. -/
def docAP : Json :=
  Json.obj [("title", Json.str "T"), ("paragraphs", Json.arr [Json.str "p1"])]

/-- A menu category with a name but no items field. -/
def menuCat : Json := Json.obj [("name", Json.str "Mains")]

/-- C3:  in the defensive variant each repeating group degrades
independently:  a missing or non-sequence paragraphs field renders zero
paragraph items while composable features still render; a missing or
non-sequence features field renders the paragraphs only, zero feature
entries, no fault, whatever paragraphs holds; a missing or non-sequence
categories field renders zero categories; a category whose items field
is missing or not a sequence still renders its block with zero items,
and composable categories render the section; a missing or null details
field renders zero contact entries.  The strict variant violates the
claim:  renderAbout of app.js throws on a document without a paragraphs
array (last conjunct). -/
theorem C3_missing_group_renders_zero_items (doc category : Json)
    (h : doc.truthy = true) :
    (notSeq (doc.get "paragraphs") →
      ∀ feats, (arrayOrEmpty (doc.get "features")).mapM Part000.featureHtml
          = some feats →
        Part000.renderAbout doc = RenderResult.rendered
          ⟨jsOrStr (doc.get "title") "About Us",
           "" ++ (if (arrayOrEmpty (doc.get "features")).length != 0 then
               "<div class=\"features\">" ++ String.join feats ++ "</div>"
             else "")⟩) ∧
    (notSeq (doc.get "features") →
      Part000.renderAbout doc = RenderResult.rendered
        ⟨jsOrStr (doc.get "title") "About Us",
         String.join ((arrayOrEmpty (doc.get "paragraphs")).map paragraphHtml)
           ++ ""⟩) ∧
    (notSeq (doc.get "categories") →
      Part000.renderMenu doc = RenderResult.rendered
        ⟨jsOrStr (doc.get "title") "Our Menu", "", jsOrStr (doc.get "note") ""⟩) ∧
    (category ≠ Json.null → notSeq (category.get "items") →
      Part000.menuCategoryHtml category = some
        ("<div class=\"menu-category\"><h3>" ++
          jsOrStr (category.get "name") "Menu" ++ "</h3><ul>" ++ "" ++
          "</ul></div>")) ∧
    (∀ cats, (arrayOrEmpty (doc.get "categories")).mapM Part000.menuCategoryHtml
        = some cats →
      Part000.renderMenu doc = RenderResult.rendered
        ⟨jsOrStr (doc.get "title") "Our Menu", String.join cats,
         jsOrStr (doc.get "note") ""⟩) ∧
    (notSeq (doc.get "items") →
      Part000.renderServices doc = RenderResult.rendered
        ⟨jsOrStr (doc.get "title") "Our Services", ""⟩) ∧
    (doc.get "details" = none →
      Part000.renderContact doc = RenderResult.rendered
        ⟨jsOrStr (doc.get "title") "Contact Us", "", Part000.ctaHtmlOf doc⟩ ∧
      Part000.ctaHref doc = "#contact") ∧
    (doc.get "details" = some Json.null →
      Part000.renderContact doc = RenderResult.rendered
        ⟨jsOrStr (doc.get "title") "Contact Us", "", Part000.ctaHtmlOf doc⟩ ∧
      Part000.ctaHref doc = "#contact") ∧
    AppJs.renderAbout (Json.obj [("title", Json.str "About")]) = RenderResult.fault := by
  refine ⟨?_, ?_, ?_, ?_, ?_, ?_, ?_, ?_, rfl⟩
  · intro hp feats hf
    have e1 := arrayOrEmpty_eq_nil hp
    have ht : Part000.aboutTextHtml doc = some ("" ++
        (if (arrayOrEmpty (doc.get "features")).length != 0 then
           "<div class=\"features\">" ++ String.join feats ++ "</div>"
         else "")) := by
      unfold Part000.aboutTextHtml
      rw [hf, e1]
      rfl
    unfold Part000.renderAbout
    rw [ht, h]
    rfl
  · intro hfnot
    have e2 := arrayOrEmpty_eq_nil hfnot
    have ht : Part000.aboutTextHtml doc = some
        (String.join ((arrayOrEmpty (doc.get "paragraphs")).map paragraphHtml)
          ++ "") := by
      unfold Part000.aboutTextHtml
      rw [e2]
      rfl
    unfold Part000.renderAbout
    rw [ht, h]
    rfl
  · intro hc
    have e := arrayOrEmpty_eq_nil hc
    unfold Part000.renderMenu
    rw [e, h]
    rfl
  · intro hnn hi
    cases category with
    | null => exact absurd rfl hnn
    | bool b => rfl
    | num n => rfl
    | str s => rfl
    | arr xs => rfl
    | obj fs =>
        have e := arrayOrEmpty_eq_nil hi
        unfold Part000.menuCategoryHtml
        rw [e]
        rfl
  · intro cats hcs
    unfold Part000.renderMenu
    rw [hcs, h]
    rfl
  · intro hi2
    have e := arrayOrEmpty_eq_nil hi2
    unfold Part000.renderServices
    rw [e, h]
    rfl
  · intro hd
    have hdet : Part000.detailsOf doc = Json.obj [] := by
      unfold Part000.detailsOf
      rw [hd]
    have hinfo : Part000.infoHtmlOf doc = some "" := by
      unfold Part000.infoHtmlOf
      rw [hdet]
      rfl
    have hhref : Part000.ctaHref doc = "#contact" := by
      unfold Part000.ctaHref
      rw [hdet]
      rfl
    refine ⟨?_, hhref⟩
    unfold Part000.renderContact
    rw [hinfo, h]
    rfl
  · intro hd
    have hdet : Part000.detailsOf doc = Json.obj [] := by
      unfold Part000.detailsOf
      rw [hd]
      rfl
    have hinfo : Part000.infoHtmlOf doc = some "" := by
      unfold Part000.infoHtmlOf
      rw [hdet]
      rfl
    have hhref : Part000.ctaHref doc = "#contact" := by
      unfold Part000.ctaHref
      rw [hdet]
      rfl
    refine ⟨?_, hhref⟩
    unfold Part000.renderContact
    rw [hinfo, h]
    rfl

/-- C3 witness:  a title-only document renders every section with zero
group items, a document with paragraphs but no features renders the
paragraphs only, a category without items renders an empty list, and
the strict variant faults on the about document. -/
theorem C3_missing_group_renders_zero_items_witness :
    Part000.renderAbout docT = RenderResult.rendered ⟨"T", ""⟩ ∧
    Part000.renderAbout docAP = RenderResult.rendered ⟨"T", "<p>p1</p>"⟩ ∧
    Part000.renderMenu docT = RenderResult.rendered ⟨"T", "", ""⟩ ∧
    Part000.menuCategoryHtml menuCat =
      some "<div class=\"menu-category\"><h3>Mains</h3><ul></ul></div>" ∧
    Part000.renderServices docT = RenderResult.rendered ⟨"T", ""⟩ ∧
    Part000.renderContact docT =
      RenderResult.rendered ⟨"T", "", Part000.ctaHtmlOf docT⟩ ∧
    Part000.ctaHref docT = "#contact" ∧
    AppJs.renderAbout (Json.obj [("title", Json.str "About")]) = RenderResult.fault := by
  have h := C3_missing_group_renders_zero_items docT menuCat (by rfl)
  have h2 := C3_missing_group_renders_zero_items docAP menuCat (by rfl)
  have hcontact := h.2.2.2.2.2.2.1 rfl
  exact ⟨h.1 notSeq_none [] rfl, h2.2.1 notSeq_none, h.2.2.1 notSeq_none,
    h.2.2.2.1 (fun hh => Json.noConfusion hh) notSeq_none,
    h.2.2.2.2.2.1 notSeq_none, hcontact.1, hcontact.2,
    h.2.2.2.2.2.2.2.2⟩

/-- The five null documents, as after five failed loads. -/
def nullDocs : SectionDocs :=
  { site := Json.null, about := Json.null, menu := Json.null,
    services := Json.null, contact := Json.null }

/-- C4:  when the accessor returns the failure value (NotFound = null),
every renderer of both variants returns before any DOM mutation
(`skipped`); and each section's render output is a function of its own
document alone, so one section's failure cannot block or corrupt
another section's render. -/
theorem C4_notfound_no_mutation (doc : Json) (hnull : doc = Json.null)
    (d : SectionDocs) :
    (renderSite doc = RenderResult.skipped ∧
     Part000.renderAbout doc = RenderResult.skipped ∧
     Part000.renderMenu doc = RenderResult.skipped ∧
     Part000.renderServices doc = RenderResult.skipped ∧
     Part000.renderContact doc = RenderResult.skipped ∧
     AppJs.renderAbout doc = RenderResult.skipped ∧
     AppJs.renderMenu doc = RenderResult.skipped ∧
     AppJs.renderServices doc = RenderResult.skipped ∧
     AppJs.renderContact doc = RenderResult.skipped) ∧
    ((Part000.renderAll d).site = renderSite d.site ∧
     (Part000.renderAll d).about = Part000.renderAbout d.about ∧
     (Part000.renderAll d).menu = Part000.renderMenu d.menu ∧
     (Part000.renderAll d).services = Part000.renderServices d.services ∧
     (Part000.renderAll d).contact = Part000.renderContact d.contact) ∧
    ((AppJs.renderAll d).site = renderSite d.site ∧
     (AppJs.renderAll d).about = AppJs.renderAbout d.about ∧
     (AppJs.renderAll d).menu = AppJs.renderMenu d.menu ∧
     (AppJs.renderAll d).services = AppJs.renderServices d.services ∧
     (AppJs.renderAll d).contact = AppJs.renderContact d.contact) := by
  subst hnull
  exact ⟨⟨rfl, rfl, rfl, rfl, rfl, rfl, rfl, rfl, rfl⟩,
    ⟨rfl, rfl, rfl, rfl, rfl⟩, ⟨rfl, rfl, rfl, rfl, rfl⟩⟩

/-- C4 witness:  concrete failed documents leave every section
untouched, and one section's result is computed from its own document. -/
theorem C4_notfound_no_mutation_witness :
    renderSite Json.null = RenderResult.skipped ∧
    Part000.renderAbout Json.null = RenderResult.skipped ∧
    (Part000.renderAll nullDocs).menu = Part000.renderMenu Json.null ∧
    (AppJs.renderAll nullDocs).menu = AppJs.renderMenu Json.null := by
  have h := C4_notfound_no_mutation Json.null rfl nullDocs
  exact ⟨h.1.1, h.1.2.1, h.2.1.2.2.1, h.2.2.2.2.1⟩

lemma Part000.serviceCardHtml_ne_null (item : Json) (hnn : item ≠ Json.null) :
    Part000.serviceCardHtml item =
      some (Part000.serviceCardTemplate (jsOrStr (item.get "icon") "")
        (jsOrStr (item.get "name") "") (jsOrStr (item.get "description") "")) := by
  cases item with
  | null => exact absurd rfl hnn
  | bool b => rfl
  | num n => rfl
  | str s => rfl
  | arr xs => rfl
  | obj fs => rfl

lemma Part000.featureHtml_ne_null (item : Json) (hnn : item ≠ Json.null) :
    Part000.featureHtml item =
      some (Part000.featureTemplate (jsOrStr (item.get "icon") "")
        (jsOrStr (item.get "text") "")) := by
  cases item with
  | null => exact absurd rfl hnn
  | bool b => rfl
  | num n => rfl
  | str s => rfl
  | arr xs => rfl
  | obj fs => rfl

lemma Part000.menuItemHtml_ne_null (item : Json) (hnn : item ≠ Json.null) :
    Part000.menuItemHtml item =
      some (Part000.menuItemTemplate (jsOrStr (item.get "name") "")
        (jsOrStr (item.get "description") "")) := by
  cases item with
  | null => exact absurd rfl hnn
  | bool b => rfl
  | num n => rfl
  | str s => rfl
  | arr xs => rfl
  | obj fs => rfl

lemma Part000.contactItemHtml_ne_null (item : Json) (hnn : item ≠ Json.null) :
    Part000.contactItemHtml item =
      some (Part000.contactItemTemplate (jsOrStr (item.get "icon") "")
        (jsOrStr (item.get "label") "") (Part000.contactValueHtml item)) := by
  cases item with
  | null => exact absurd rfl hnn
  | bool b => rfl
  | num n => rfl
  | str s => rfl
  | arr xs => rfl
  | obj fs => rfl

/-- C5:  in the defensive variant every absent display field of a
non-null group item resolves to the empty string inside the composed
markup, the fixed template text around the slots contains neither
"undefined" nor "null", and a null item itself makes the enclosing map
throw before any write (the none results), exactly as in the source.
The strict variant violates the claim:  its service card renders the
literal string "undefined" for each absent field (last two
conjuncts). -/
theorem C5_absent_fields_empty (item : Json) :
    (item ≠ Json.null → item.get "icon" = none →
      Part000.serviceCardHtml item =
        some (Part000.serviceCardTemplate "" (jsOrStr (item.get "name") "")
          (jsOrStr (item.get "description") ""))) ∧
    (item ≠ Json.null → item.get "name" = none →
      Part000.serviceCardHtml item =
        some (Part000.serviceCardTemplate (jsOrStr (item.get "icon") "") ""
          (jsOrStr (item.get "description") ""))) ∧
    (item ≠ Json.null → item.get "description" = none →
      Part000.serviceCardHtml item =
        some (Part000.serviceCardTemplate (jsOrStr (item.get "icon") "")
          (jsOrStr (item.get "name") "") "")) ∧
    (item ≠ Json.null → item.get "icon" = none → item.get "text" = none →
      Part000.featureHtml item = some (Part000.featureTemplate "" "")) ∧
    (item ≠ Json.null → item.get "name" = none → item.get "description" = none →
      Part000.menuItemHtml item = some (Part000.menuItemTemplate "" "")) ∧
    (item ≠ Json.null → item.get "icon" = none → item.get "label" = none →
      item.get "value" = none → item.get "link" = none →
      Part000.contactItemHtml item = some (Part000.contactItemTemplate "" "" "")) ∧
    (item ≠ Json.null → item.get "cta_text" = none →
      Part000.ctaHtmlOf item =
        Part000.ctaTemplate "" (Part000.ctaHref item)
          (jsOrStr (item.get "cta_button") "Contact Us")) ∧
    Part000.serviceCardHtml Json.null = none ∧
    Part000.featureHtml Json.null = none ∧
    Part000.menuItemHtml Json.null = none ∧
    Part000.contactItemHtml Json.null = none ∧
    strContains "undefined" (Part000.serviceCardTemplate "" "" "") = false ∧
    strContains "null" (Part000.serviceCardTemplate "" "" "") = false ∧
    strContains "undefined" (Part000.featureTemplate "" "") = false ∧
    strContains "undefined" (Part000.menuItemTemplate "" "") = false ∧
    strContains "undefined" (Part000.contactItemTemplate "" "" "") = false ∧
    AppJs.serviceCardHtml (Json.obj []) = some
      "<div class=\"service-card\"><div class=\"service-icon\">undefined</div><h3>undefined</h3><p>undefined</p></div>" ∧
    strContains "undefined"
      "<div class=\"service-card\"><div class=\"service-icon\">undefined</div><h3>undefined</h3><p>undefined</p></div>"
      = true := by
  refine ⟨?_, ?_, ?_, ?_, ?_, ?_, ?_,
    rfl, rfl, rfl, rfl, rfl, rfl, rfl, rfl, rfl, rfl, rfl⟩
  · intro hnn h
    rw [Part000.serviceCardHtml_ne_null item hnn, h]
    rfl
  · intro hnn h
    rw [Part000.serviceCardHtml_ne_null item hnn, h]
    rfl
  · intro hnn h
    rw [Part000.serviceCardHtml_ne_null item hnn, h]
    rfl
  · intro hnn h1 h2
    rw [Part000.featureHtml_ne_null item hnn, h1, h2]
    rfl
  · intro hnn h1 h2
    rw [Part000.menuItemHtml_ne_null item hnn, h1, h2]
    rfl
  · intro hnn h1 h2 h3 h4
    rw [Part000.contactItemHtml_ne_null item hnn]
    unfold Part000.contactValueHtml
    rw [h1, h2, h3, h4]
    rfl
  · intro hnn h
    unfold Part000.ctaHtmlOf
    rw [h]
    rfl

/-- C5 witness:  an item with no fields at all composes to the bare
templates with empty slots in the defensive variant, a null item yields
the thrown-path result, and the strict variant produces markup
containing "undefined". -/
theorem C5_absent_fields_empty_witness :
    Part000.serviceCardHtml (Json.obj [])
      = some (Part000.serviceCardTemplate "" "" "") ∧
    Part000.featureHtml (Json.obj []) = some (Part000.featureTemplate "" "") ∧
    Part000.contactItemHtml (Json.obj [])
      = some (Part000.contactItemTemplate "" "" "") ∧
    Part000.serviceCardHtml Json.null = none ∧
    strContains "undefined" (Part000.serviceCardTemplate "" "" "") = false ∧
    strContains "undefined"
      "<div class=\"service-card\"><div class=\"service-icon\">undefined</div><h3>undefined</h3><p>undefined</p></div>"
      = true := by
  have h := C5_absent_fields_empty (Json.obj [])
  have hnn : (Json.obj [] : Json) ≠ Json.null := fun hh => Json.noConfusion hh
  exact ⟨h.1 hnn rfl, h.2.2.2.1 hnn rfl rfl, h.2.2.2.2.2.1 hnn rfl rfl rfl rfl,
    h.2.2.2.2.2.2.2.1, h.2.2.2.2.2.2.2.2.2.2.2.1,
    h.2.2.2.2.2.2.2.2.2.2.2.2.2.2.2.2.2⟩

/-- C6:  in the defensive variant the call-to-action link target is the
nested details.phone.link value when that field is present and truthy,
and the same-page anchor target otherwise (details absent or null, the
phone entry absent, or the link absent), and the renderer writes it
whenever the contact-info composition succeeds (in particular when
details is absent).  Two slips contradict the claim's no-fault
requirement:  part_000 itself throws on a null detail value before any
write (second-to-last conjunct), and the strict variant throws whenever
details is absent (last conjunct). -/
theorem C6_cta_link (contact : Json) (h : contact.truthy = true) :
    (∀ d p l, contact.get "details" = some d → d.truthy = true →
      d.get "phone" = some p → p ≠ Json.null → p.get "link" = some l →
      l.truthy = true → Part000.ctaHref contact = l.toDisplay) ∧
    (contact.get "details" = none → Part000.ctaHref contact = "#contact") ∧
    (∀ d, contact.get "details" = some d → d.truthy = true →
      d.get "phone" = none → Part000.ctaHref contact = "#contact") ∧
    (∀ d p, contact.get "details" = some d → d.truthy = true →
      d.get "phone" = some p → p ≠ Json.null → p.get "link" = none →
      Part000.ctaHref contact = "#contact") ∧
    (∀ info, Part000.infoHtmlOf contact = some info →
      Part000.renderContact contact =
        RenderResult.rendered ⟨jsOrStr (contact.get "title") "Contact Us",
          info, Part000.ctaHtmlOf contact⟩) ∧
    (contact.get "cta_text" = none →
      Part000.ctaHtmlOf contact =
        Part000.ctaTemplate "" (Part000.ctaHref contact)
          (jsOrStr (contact.get "cta_button") "Contact Us")) ∧
    (contact.get "details" = none → Part000.infoHtmlOf contact = some "") ∧
    Part000.renderContact (Json.obj [("details", Json.obj [("x", Json.null)])])
      = RenderResult.fault ∧
    AppJs.renderContact (Json.obj [("title", Json.str "Contact")])
      = RenderResult.fault := by
  refine ⟨?_, ?_, ?_, ?_, ?_, ?_, ?_, rfl, rfl⟩
  · intro d p l hd hdt hp hpn hl hlt
    have hdet : Part000.detailsOf contact = d := by
      unfold Part000.detailsOf
      rw [hd]
      simp [hdt]
    have hchain : jsOptChain (d.get "phone") "link" = some l := by
      rw [hp]
      cases p with
      | null => exact absurd rfl hpn
      | bool b => exact hl
      | num n => exact hl
      | str s => exact hl
      | arr xs => exact hl
      | obj fs => exact hl
    unfold Part000.ctaHref
    rw [hdet, hchain]
    simp [jsOrStr, hlt]
  · intro hd
    unfold Part000.ctaHref Part000.detailsOf
    rw [hd]
    rfl
  · intro d hd hdt hp
    have hdet : Part000.detailsOf contact = d := by
      unfold Part000.detailsOf
      rw [hd]
      simp [hdt]
    unfold Part000.ctaHref
    rw [hdet, hp]
    rfl
  · intro d p hd hdt hp hpn hl
    have hdet : Part000.detailsOf contact = d := by
      unfold Part000.detailsOf
      rw [hd]
      simp [hdt]
    have hchain : jsOptChain (d.get "phone") "link" = none := by
      rw [hp]
      cases p with
      | null => exact absurd rfl hpn
      | bool b => exact hl
      | num n => exact hl
      | str s => exact hl
      | arr xs => exact hl
      | obj fs => exact hl
    unfold Part000.ctaHref
    rw [hdet, hchain]
    rfl
  · intro info hinfo
    unfold Part000.renderContact
    rw [hinfo, h]
    rfl
  · intro hct
    unfold Part000.ctaHtmlOf
    rw [hct]
    rfl
  · intro hd
    have hdet : Part000.detailsOf contact = Json.obj [] := by
      unfold Part000.detailsOf
      rw [hd]
    unfold Part000.infoHtmlOf
    rw [hdet]
    rfl

/-- The contact document from the specification's test vector. -/
def specContact : Json :=
  Json.obj [("details", Json.obj [("phone", Json.obj
    [("icon", Json.str "📞"), ("label", Json.str "Phone"),
     ("value", Json.str "123"), ("link", Json.str "tel:123")])])]

/-- The phone entry of `specContact`. -/
def specPhone : Json :=
  Json.obj [("icon", Json.str "📞"), ("label", Json.str "Phone"),
    ("value", Json.str "123"), ("link", Json.str "tel:123")]

/-- C6 witness:  on the specification's test vector the link target is
tel:123, the CTA text slot is empty, the renderer renders the composed
detail entry, while part_000 faults on a null detail value and the
strict variant faults on a detail-less document. -/
theorem C6_cta_link_witness :
    Part000.ctaHref specContact = "tel:123" ∧
    Part000.ctaHtmlOf specContact = Part000.ctaTemplate "" "tel:123" "Contact Us" ∧
    Part000.renderContact specContact = RenderResult.rendered
      ⟨"Contact Us",
       Part000.contactItemTemplate "📞" "Phone" "<a href=\"tel:123\">123</a>",
       Part000.ctaHtmlOf specContact⟩ ∧
    Part000.renderContact (Json.obj [("details", Json.obj [("x", Json.null)])])
      = RenderResult.fault ∧
    AppJs.renderContact (Json.obj [("title", Json.str "Contact")])
      = RenderResult.fault := by
  have h := C6_cta_link specContact (by rfl)
  have ha := h.1 (Json.obj [("phone", specPhone)]) specPhone (Json.str "tel:123")
    rfl rfl rfl (fun hh => Json.noConfusion hh) rfl rfl
  have hr := h.2.2.2.2.1
    (Part000.contactItemTemplate "📞" "Phone" "<a href=\"tel:123\">123</a>") rfl
  exact ⟨ha, h.2.2.2.2.2.1 rfl, hr, h.2.2.2.2.2.2.2.1, h.2.2.2.2.2.2.2.2⟩

/-- C7:  in the defensive variant a successful fetch whose body fails to
parse returns NotFound and logs a two-line diagnostic that contains the
resource name and authoring guidance, and that diagnostic differs from
the transport-failure diagnostic.  The strict variant violates this:
its parse failure logs exactly the transport-failure message, with no
guidance (last conjunct). -/
theorem C7_parse_diagnostic (env : Env) (cache : Cache) (name body : String)
    (hmiss : jsTruthy (cacheLookup cache name) = false)
    (hfetch : env.fetch name = FetchResult.ok body)
    (hparse : env.parse body = none) :
    (Part000.loadData env cache name).result = Json.null ∧
    (Part000.loadData env cache name).log =
      ["JSON syntax error in " ++ name ++ ".json:",
       "Check for missing commas, extra commas, or unclosed brackets"] ∧
    strContains name ("JSON syntax error in " ++ name ++ ".json:") = true ∧
    (∀ env2 cache2, jsTruthy (cacheLookup cache2 name) = false →
      env2.fetch name = FetchResult.transportError →
      (Part000.loadData env2 cache2 name).log = ["Error loading " ++ name ++ ":"]) ∧
    ("JSON syntax error in " ++ name ++ ".json:") ≠ ("Error loading " ++ name ++ ":") ∧
    (AppJs.loadData env cache name).log = ["Error loading " ++ name ++ ":"] := by
  have hp := Part000.loadData_of_miss env cache name hmiss
  have ha := AppJs.loadData_of_miss_strict env cache name hmiss
  refine ⟨?_, ?_, ?_, ?_, parse_log_ne_transport_log name, ?_⟩
  · rw [hp]
    simp [Part000.fetchAndParse, hfetch, hparse]
  · rw [hp]
    simp [Part000.fetchAndParse, hfetch, hparse]
  · exact strContains_mid name "JSON syntax error in " ".json:"
  · intro env2 cache2 hm2 hf2
    rw [Part000.loadData_of_miss env2 cache2 name hm2]
    simp [Part000.fetchAndParse, hf2]
  · rw [ha]
    simp [AppJs.fetchAndParse, hfetch, hparse]

/-- C7 witness:  a concrete unparseable body yields the two-line naming
and guidance diagnostic in the defensive variant and the generic
transport message in the strict variant. -/
theorem C7_parse_diagnostic_witness :
    (Part000.loadData envBad [] "site").log =
      ["JSON syntax error in site.json:",
       "Check for missing commas, extra commas, or unclosed brackets"] ∧
    strContains "site" "JSON syntax error in site.json:" = true ∧
    ("JSON syntax error in site.json:" : String) ≠ "Error loading site:" ∧
    (AppJs.loadData envBad [] "site").log = ["Error loading site:"] := by
  have h := C7_parse_diagnostic envBad [] "site" "oops" rfl rfl rfl
  exact ⟨h.2.1, h.2.2.1, h.2.2.2.2.1, h.2.2.2.2.2⟩

/-- C8:  in every trace of `init`, `initNavigation` occurs exactly once,
as the very last event, strictly after all five section renderers have
settled — no chrome wiring runs while any section render is pending. -/
theorem C8_nav_after_all_settled (t : List Ev) (h : InitTrace t) :
    ∃ body, t = body ++ [Ev.navInit] ∧ Ev.navInit ∉ body ∧
      ∀ n ∈ sectionNames, Ev.settled n ∈ body := by
  obtain ⟨body, hint, heq⟩ := h
  subst heq
  refine ⟨body, rfl, ?_, ?_⟩
  · intro hmem
    rw [interleaveAll_mem_iff hint] at hmem
    obtain ⟨xs, hxs, hmem2⟩ := hmem
    rw [List.mem_map] at hxs
    obtain ⟨n, hn, rfl⟩ := hxs
    rw [List.mem_singleton] at hmem2
    exact Ev.noConfusion hmem2
  · intro n hn
    rw [interleaveAll_mem_iff hint]
    exact ⟨[Ev.settled n], List.mem_map_of_mem _ hn, List.mem_singleton_self _⟩

/-- One concrete scheduling of the five renderer tasks. -/
def c8Body : List Ev :=
  [Ev.settled "site", Ev.settled "about", Ev.settled "menu",
   Ev.settled "services", Ev.settled "contact"]

lemma c8Body_interleaving :
    InterleaveAll (sectionNames.map (fun n => [Ev.settled n])) c8Body := by
  show InterleaveAll
    [[Ev.settled "site"], [Ev.settled "about"], [Ev.settled "menu"],
     [Ev.settled "services"], [Ev.settled "contact"]]
    [Ev.settled "site", Ev.settled "about", Ev.settled "menu",
     Ev.settled "services", Ev.settled "contact"]
  refine .cons (.left (interleave_nil_left _)) ?_
  refine .cons (.left (interleave_nil_left _)) ?_
  refine .cons (.left (interleave_nil_left _)) ?_
  refine .cons (.left (interleave_nil_left _)) ?_
  exact .cons (.left (interleave_nil_left _)) .nil

/-- C8 witness:  on a concrete bootstrap trace, the chrome event is not
among the renderer events and every section settles in the body. -/
theorem C8_nav_after_all_settled_witness :
    Ev.navInit ∉ c8Body ∧ Ev.settled "menu" ∈ c8Body ∧
      Ev.settled "contact" ∈ c8Body := by
  obtain ⟨body, heq, hnav, hall⟩ :=
    C8_nav_after_all_settled (c8Body ++ [Ev.navInit])
      ⟨c8Body, c8Body_interleaving, rfl⟩
  have hb : body = c8Body := by simpa using heq.symm
  subst hb
  exact ⟨hnav, hall "menu" (by simp [sectionNames]),
    hall "contact" (by simp [sectionNames])⟩

/-- C9:  after the scroll handler runs, the navbar carries the scrolled
class exactly when the vertical position exceeds 50, independently of
the previous class list:  position 51 sets it, position 49 clears it,
and position exactly 50 always clears it (one consistent boundary rule,
no flicker). -/
theorem C9_scrolled_iff_above_threshold (y : Nat) (classes : List String) :
    "scrolled" ∈ onScroll y classes ↔ 50 < y := by
  unfold onScroll classAdd classRemove
  by_cases hy : y > 50
  · rw [if_pos hy]
    constructor
    · intro _
      exact hy
    · intro _
      by_cases hc : "scrolled" ∈ classes
      · rw [if_pos hc]
        exact hc
      · rw [if_neg hc]
        simp
  · rw [if_neg hy]
    simp [List.mem_filter, hy]

/-- C10:  a resource that parses to a falsy JSON document (false, 0,
empty string, or null) never produces a truthy cache hit:  the first
call fetches and returns it, and the next call fetches again even
though the value was stored; and every section renderer of both
variants treats such a document exactly like NotFound, performing no
DOM mutation. -/
theorem C10_falsy_document_never_cached (env : Env) (cache : Cache)
    (name body : String) (v : Json)
    (hfetch : env.fetch name = FetchResult.ok body)
    (hparse : env.parse body = some v)
    (hfalsy : v.truthy = false)
    (hmiss : jsTruthy (cacheLookup cache name) = false) :
    (Part000.loadData env cache name).fetched = true ∧
    (Part000.loadData env cache name).result = v ∧
    (Part000.loadData env (Part000.loadData env cache name).cache name).fetched
        = true ∧
    (AppJs.loadData env cache name).fetched = true ∧
    (AppJs.loadData env (AppJs.loadData env cache name).cache name).fetched
        = true ∧
    renderSite v = RenderResult.skipped ∧
    Part000.renderAbout v = RenderResult.skipped ∧
    Part000.renderMenu v = RenderResult.skipped ∧
    Part000.renderServices v = RenderResult.skipped ∧
    Part000.renderContact v = RenderResult.skipped ∧
    AppJs.renderAbout v = RenderResult.skipped ∧
    AppJs.renderMenu v = RenderResult.skipped ∧
    AppJs.renderServices v = RenderResult.skipped ∧
    AppJs.renderContact v = RenderResult.skipped := by
  have hp := Part000.loadData_of_miss env cache name hmiss
  have ha := AppJs.loadData_of_miss_strict env cache name hmiss
  have hfp : Part000.fetchAndParse env cache name =
      { result := v, cache := cacheInsert cache name v,
        fetched := true, log := [] } := by
    simp [Part000.fetchAndParse, hfetch, hparse]
  have hfa : AppJs.fetchAndParse env cache name =
      { result := v, cache := cacheInsert cache name v,
        fetched := true, log := [] } := by
    simp [AppJs.fetchAndParse, hfetch, hparse]
  have hmiss2 : jsTruthy (cacheLookup (cacheInsert cache name v) name) = false := by
    rw [cacheLookup_cacheInsert_self]
    simpa [jsTruthy] using hfalsy
  refine ⟨?_, ?_, ?_, ?_, ?_, ?_, ?_, ?_, ?_, ?_, ?_, ?_, ?_, ?_⟩
  · rw [hp, hfp]
  · rw [hp, hfp]
  · rw [hp, hfp]
    show (Part000.loadData env (cacheInsert cache name v) name).fetched = true
    rw [Part000.loadData_of_miss env _ name hmiss2]
    exact Part000.fetchAndParse_fetched env _ name
  · rw [ha, hfa]
  · rw [ha, hfa]
    show (AppJs.loadData env (cacheInsert cache name v) name).fetched = true
    rw [AppJs.loadData_of_miss_strict env _ name hmiss2]
    exact AppJs.fetchAndParse_fetched_strict env _ name
  · simp [renderSite, hfalsy]
  · simp [Part000.renderAbout, hfalsy]
  · simp [Part000.renderMenu, hfalsy]
  · simp [Part000.renderServices, hfalsy]
  · simp [Part000.renderContact, hfalsy]
  · simp [AppJs.renderAbout, hfalsy]
  · simp [AppJs.renderMenu, hfalsy]
  · simp [AppJs.renderServices, hfalsy]
  · simp [AppJs.renderContact, hfalsy]

/-- C10 witness:  the concrete falsy document 0 is fetched on both the
first and the second call and every renderer skips it. -/
theorem C10_falsy_document_never_cached_witness :
    (Part000.loadData envZero [] "site").fetched = true ∧
    (Part000.loadData envZero (Part000.loadData envZero [] "site").cache "site").fetched
        = true ∧
    Part000.renderAbout (Json.num 0) = RenderResult.skipped ∧
    AppJs.renderMenu (Json.num 0) = RenderResult.skipped := by
  have h := C10_falsy_document_never_cached envZero [] "site" "0" (Json.num 0)
    rfl rfl rfl rfl
  exact ⟨h.1, h.2.2.1, h.2.2.2.2.2.2.1, h.2.2.2.2.2.2.2.2.2.2.2.1⟩
